import Mathlib

/-!
Shallow embedding of `python_ishare/verification.py`: the EORI identifier
format validator `is_valid_eori_number` and the client-assertion validation
pipeline `validate_client_assertion`, together with theorems settling the
spec claims about them.
-/

namespace IShare

/-- Matches Python's `.` regex atom on `str` input: any character except a
newline (the `re.DOTALL` flag is not set in the source). -/
def dotAny (c : Char) : Bool := c ≠ '\n'

/-- Embedding of `re.fullmatch(r"EU.EORI.[A-Z]{2}[0-9]{1,15}", s) is not None`.
The pattern is a fixed-width sequence (every atom consumes exactly one
character, except the final `[0-9]{1,15}`, which `fullmatch` forces to consume
exactly the remaining characters), so the match is the positional predicate
below.  Note the two `.` atoms in the pattern are wildcards, not literal
dots. -/
def eori_regex_fullmatch (s : String) : Bool :=
  match s.data with
  | 'E' :: 'U' :: a :: 'E' :: 'O' :: 'R' :: 'I' :: b :: c1 :: c2 :: rest =>
      dotAny a && dotAny b && c1.isUpper && c2.isUpper &&
      decide (1 ≤ rest.length) && decide (rest.length ≤ 15) &&
      rest.all Char.isDigit
  | _ => false

/-- Embedding of `is_valid_eori_number(eori_number, strict_eori)`.  The
`eori_number` is `Option String` so that Python's `None` (absent identifier)
is representable; `none` models `eori_number is None`. -/
def is_valid_eori_number (eori_number : Option String) (strict_eori : Bool) : Bool :=
  match eori_number with
  | none => false
  | some s =>
      if s = "" then false
      else if ¬ strict_eori then true
      else eori_regex_fullmatch s

/-- Header fields read by `jwt.get_unverified_header` and then accessed with
`headers["alg"]`, `headers["typ"]`, `headers["x5c"]`.  Each field is `none`
when the key is absent from the header JSON object (Python raises `KeyError`
on access); for `x5c`, `some none` models a present key whose value is JSON
`null` (Python `None`), and `some (some l)` a present list of base64
certificate strings. -/
structure Header where
  alg : Option String
  typ : Option String
  x5c : Option (Option (List String))
deriving DecidableEq

/-- Verified JWT payload as used by `validate_client_assertion`: the claims it
reads via `jwt_payload.get(...)`, each `none` when absent.  The `jti` claim is
modelled as a string, its Python truthiness being non-emptiness.  Integer
claims are unbounded Python ints, hence `Int`. -/
structure Payload where
  sub : Option String
  iss : Option String
  jti : Option String
  exp : Option Int
  iat : Option Int
deriving DecidableEq

/-- Modelled from the spec: outcome of one call to the external
signature/claims decoder `decode_jwt` (module `python_ishare.authentication`,
not under `src/`; contract in spec section 6).  It either returns the decoded
claim mapping, or raises one of the three classified `jwt` exceptions
(`ExpiredSignatureError`, `ImmatureSignatureError`, `InvalidAudienceError`),
or raises some other error (bad signature, malformed payload, certificate
parsing failure, ...). -/
inductive DecodeResult where
  | ok (jwt_payload : Payload)
  | expiredSignature
  | immatureSignature
  | invalidAudience
  | otherError
deriving DecidableEq

/-- The thirteen members of the error taxonomy, one per `ishare_exc` exception
class raised in `validate_client_assertion`. -/
inductive ErrorKind where
  | InvalidGrantType
  | InvalidScope
  | InvalidClientAssertionType
  | InvalidTokenAlgorithm
  | InvalidTokenType
  | InvalidCertificate
  | TokenExpired
  | TokenNotValidYet
  | InvalidAudience
  | InvalidClientId
  | InvalidTokenIssuerOrSubscriber
  | InvalidTokenJTI
  | TokenExpirationInvalid
deriving DecidableEq

/-- Exceptions that escape `validate_client_assertion` without being a member
of the error taxonomy: a failure of `jwt.get_unverified_header`, a `KeyError`
on a missing header key, or an uncaught error from the decoding step. -/
inductive UnclassifiedError where
  | headerDecodeError
  | keyError (key : String)
  | decoderError
deriving DecidableEq

/-- A raised exception: either a taxonomy member or an unclassified error. -/
inductive Failure where
  | taxonomy (k : ErrorKind)
  | unclassified (u : UnclassifiedError)
deriving DecidableEq

/-- Python truthiness of the `jti` claim value: `None` and `""` are falsy. -/
def jtiTruthy (j : Option String) : Bool :=
  match j with
  | none => false
  | some s => s ≠ ""

/-- The module constant `ASSERTION_TYPE`. -/
def ASSERTION_TYPE : String := "urn:ietf:params:oauth:client-assertion-type:jwt-bearer"

/-- Embedding of `validate_client_assertion`.  The two external calls are
passed in as oracle parameters: `getHeader` models
`jwt.get_unverified_header` (`none` when it raises on an unparseable token),
and `decode` models `decode_jwt` applied to the token, the certificate list
taken from `x5c`, and the audience.  `strict_eori` keeps its source default
of `false`. -/
def validate_client_assertion
    (client_id : String) (client_assertion : String) (audience : String)
    (grant_type : String) (scope : String) (client_assertion_type : String)
    (getHeader : String → Option Header)
    (decode : String → List String → String → DecodeResult)
    (strict_eori : Bool := false) : Except Failure Payload :=
  if grant_type ≠ "client_credentials" then
    .error (.taxonomy .InvalidGrantType)
  else if scope ≠ "iSHARE" then
    .error (.taxonomy .InvalidScope)
  else if client_assertion_type ≠ ASSERTION_TYPE then
    .error (.taxonomy .InvalidClientAssertionType)
  else
    match getHeader client_assertion with
    | none => .error (.unclassified .headerDecodeError)
    | some headers =>
      match headers.alg with
      | none => .error (.unclassified (.keyError "alg"))
      | some alg =>
        if alg ≠ "RS256" then .error (.taxonomy .InvalidTokenAlgorithm)
        else
          match headers.typ with
          | none => .error (.unclassified (.keyError "typ"))
          | some typ =>
            if typ ≠ "JWT" then .error (.taxonomy .InvalidTokenType)
            else
              match headers.x5c with
              | none => .error (.unclassified (.keyError "x5c"))
              | some none => .error (.taxonomy .InvalidCertificate)
              | some (some x5c) =>
                if x5c.length < 1 then .error (.taxonomy .InvalidCertificate)
                else
                  match decode client_assertion x5c audience with
                  | .expiredSignature => .error (.taxonomy .TokenExpired)
                  | .immatureSignature => .error (.taxonomy .TokenNotValidYet)
                  | .invalidAudience => .error (.taxonomy .InvalidAudience)
                  | .otherError => .error (.unclassified .decoderError)
                  | .ok jwt_payload =>
                    if ¬ is_valid_eori_number (some client_id) strict_eori then
                      .error (.taxonomy .InvalidClientId)
                    else if some client_id ≠ jwt_payload.sub ∨
                        some client_id ≠ jwt_payload.iss then
                      .error (.taxonomy .InvalidTokenIssuerOrSubscriber)
                    else if ¬ jtiTruthy jwt_payload.jti then
                      .error (.taxonomy .InvalidTokenJTI)
                    else
                      let expires : Int := jwt_payload.exp.getD 0
                      let issued : Int := jwt_payload.iat.getD 0
                      if expires - issued ≠ 30 then
                        .error (.taxonomy .TokenExpirationInvalid)
                      else .ok jwt_payload


/-! Concrete values used by witnesses and counterexamples. -/

/-- A strictly valid EORI identifier, as in the spec's end-to-end scenario. -/
def cid0 : String := "EU.EORI.NL000000000000001"

/-- A header that passes the algorithm, type and certificate checks. -/
def hdr0 : Header := ⟨some "RS256", some "JWT", some (some ["certA"])⟩

/-- Header oracle returning `hdr0` for every token. -/
def gh0 : String → Option Header := fun _ => some hdr0

/-- A payload satisfying every claim check for `client_id = cid0`. -/
def payload0 : Payload := ⟨some cid0, some cid0, some "abc123", some 1030, some 1000⟩

/-- Decoder oracle that succeeds with `payload0`. -/
def dec0 : String → List String → String → DecodeResult := fun _ _ _ => .ok payload0

/-- A payload whose `sub` differs from `cid0` while `iss` matches. -/
def payloadBadSub : Payload :=
  ⟨some "EU.EORI.NL000000000000002", some cid0, some "abc123", some 1030, some 1000⟩

/-- Decoder oracle that succeeds with `payloadBadSub`. -/
def decBadSub : String → List String → String → DecodeResult := fun _ _ _ => .ok payloadBadSub

/-- A payload with `exp = 30` and no `iat` claim. -/
def payloadNoIat : Payload := ⟨some cid0, some cid0, some "abc123", some 30, none⟩

/-- Decoder oracle that succeeds with `payloadNoIat`. -/
def decNoIat : String → List String → String → DecodeResult := fun _ _ _ => .ok payloadNoIat

/-- Decoder oracle that raises `ExpiredSignatureError`. -/
def decExpired : String → List String → String → DecodeResult := fun _ _ _ => .expiredSignature

/-- Decoder oracle that raises an unclassified error (e.g. a bad signature). -/
def decOther : String → List String → String → DecodeResult := fun _ _ _ => .otherError


/-- C1: in the source pattern `EU.EORI.[A-Z]{2}[0-9]{1,15}` the two dots are
unescaped regex wildcards, so `is_valid_eori_number` with `strict_eori = true`
also accepts identifiers whose third and eighth characters are not literal
dots, e.g. `EUxEORIxNL123456789`, contradicting the claim that only the
literal prefix `EU.EORI.` is accepted; the spec's three stated examples do
behave as claimed. -/
theorem c1_strict_dot_is_wildcard :
    is_valid_eori_number (some "EUxEORIxNL123456789") true = true
    ∧ is_valid_eori_number (some "EU.EORI.NL123456789") true = true
    ∧ is_valid_eori_number (some "EU.EORI.nl123456789") true = false
    ∧ is_valid_eori_number (some "EU.EORI.NL1234567890123456") true = false := by
  decide

/-- C8: an absent (`None`) or empty identifier is rejected for either value of
`strict_eori`, and with `strict_eori = false` every non-empty identifier is
accepted. -/
theorem c8_empty_and_nonstrict (strict_eori : Bool) :
    is_valid_eori_number none strict_eori = false
    ∧ is_valid_eori_number (some "") strict_eori = false
    ∧ ∀ s : String, s ≠ "" → is_valid_eori_number (some s) false = true := by
  refine ⟨rfl, rfl, fun s hs => ?_⟩
  simp [is_valid_eori_number, hs]

/-- C8 witness: the theorem instantiated at `strict_eori = true` and the
non-empty identifier `"x"`. -/
theorem c8_empty_and_nonstrict_witness :
    is_valid_eori_number none true = false
    ∧ is_valid_eori_number (some "") true = false
    ∧ is_valid_eori_number (some "x") false = true :=
  ⟨(c8_empty_and_nonstrict true).1, (c8_empty_and_nonstrict true).2.1,
    (c8_empty_and_nonstrict true).2.2 "x" (by decide)⟩

/-- C9: `strict_eori` defaults to `false` in `validate_client_assertion`, and
with that default any non-empty `client_id` passes the step-9 identifier
format check. -/
theorem c9_default_strict_eori_false
    (client_id client_assertion audience grant_type scope client_assertion_type : String)
    (getHeader : String → Option Header)
    (decode : String → List String → String → DecodeResult) :
    validate_client_assertion client_id client_assertion audience grant_type scope
        client_assertion_type getHeader decode
      = validate_client_assertion client_id client_assertion audience grant_type scope
        client_assertion_type getHeader decode false
    ∧ (client_id ≠ "" → is_valid_eori_number (some client_id) false = true) :=
  ⟨rfl, fun h => by simp [is_valid_eori_number, h]⟩

/-- C9 witness: the theorem instantiated at concrete arguments, the non-empty
identifier hypothesis discharged at `cid0`. -/
theorem c9_default_strict_eori_false_witness :
    validate_client_assertion cid0 "token" "aud" "client_credentials" "iSHARE"
        ASSERTION_TYPE gh0 dec0
      = validate_client_assertion cid0 "token" "aud" "client_credentials" "iSHARE"
        ASSERTION_TYPE gh0 dec0 false
    ∧ is_valid_eori_number (some cid0) false = true :=
  ⟨(c9_default_strict_eori_false cid0 "token" "aud" "client_credentials" "iSHARE"
      ASSERTION_TYPE gh0 dec0).1,
    (c9_default_strict_eori_false cid0 "token" "aud" "client_credentials" "iSHARE"
      ASSERTION_TYPE gh0 dec0).2 (by decide)⟩

/-- C5: whenever `grant_type` differs from the literal `client_credentials`,
`validate_client_assertion` fails with `InvalidGrantType` for every header
oracle, every decoder oracle and every `strict_eori` — in particular the
assertion string is never parsed and its signature is never checked, since
the outcome is the same for all possible outcomes of those calls. -/
theorem c5_grant_type_checked_first
    (client_id client_assertion audience grant_type scope client_assertion_type : String)
    (hg : grant_type ≠ "client_credentials") :
    ∀ (getHeader : String → Option Header)
      (decode : String → List String → String → DecodeResult) (strict_eori : Bool),
      validate_client_assertion client_id client_assertion audience grant_type scope
        client_assertion_type getHeader decode strict_eori
      = .error (.taxonomy .InvalidGrantType) := by
  intro getHeader decode strict_eori
  unfold validate_client_assertion
  rw [if_pos hg]

/-- C5 witness: the theorem at `grant_type = "authorization_code"` with a
well-formed header and a succeeding decoder. -/
theorem c5_grant_type_checked_first_witness :
    validate_client_assertion cid0 "not-even-a-jwt" "aud" "authorization_code" "iSHARE"
      ASSERTION_TYPE gh0 dec0 true
    = .error (.taxonomy .InvalidGrantType) :=
  c5_grant_type_checked_first cid0 "not-even-a-jwt" "aud" "authorization_code" "iSHARE"
    ASSERTION_TYPE (by decide) gh0 dec0 true


/-- C2 counterexample: a request that passes steps 1-7 but whose decoding
step raises an uncaught error (e.g. a bad signature) produces an outcome that
is neither the verified claims nor a member of the error taxonomy: the
exception propagates unclassified, refuting the claim that no other outcome
occurs. -/
theorem c2_unclassified_outcome_exists :
    validate_client_assertion cid0 "token" "aud" "client_credentials" "iSHARE"
      ASSERTION_TYPE gh0 decOther true
    = .error (.unclassified .decoderError) := rfl

set_option maxHeartbeats 1600000 in
/-- C2 (amended): whenever the header parses, its `alg`, `typ` and `x5c` keys
are all present, and the decoding step does not raise an unclassified error,
`validate_client_assertion` either returns the verified claims or fails with
exactly one member of the error taxonomy. -/
theorem c2_outcome_taxonomy_or_claims
    (client_id client_assertion audience grant_type scope client_assertion_type : String)
    (strict_eori : Bool) (getHeader : String → Option Header)
    (decode : String → List String → String → DecodeResult)
    (headers : Header) (alg typ : String) (x5cv : Option (List String))
    (hgh : getHeader client_assertion = some headers)
    (halg : headers.alg = some alg)
    (htyp : headers.typ = some typ)
    (hx5c : headers.x5c = some x5cv)
    (hdec : ∀ certs, decode client_assertion certs audience ≠ .otherError) :
    (∃ p, validate_client_assertion client_id client_assertion audience grant_type scope
        client_assertion_type getHeader decode strict_eori = .ok p)
    ∨ (∃ k, validate_client_assertion client_id client_assertion audience grant_type scope
        client_assertion_type getHeader decode strict_eori = .error (.taxonomy k)) := by
  cases hv : validate_client_assertion client_id client_assertion audience grant_type
      scope client_assertion_type getHeader decode strict_eori with
  | ok p => exact Or.inl ⟨p, rfl⟩
  | error f =>
    cases f with
    | taxonomy k => exact Or.inr ⟨k, rfl⟩
    | unclassified u =>
      exfalso
      unfold validate_client_assertion at hv
      simp only [hgh, halg, htyp, hx5c] at hv
      repeat' split at hv
      all_goals first
        | exact absurd (by assumption) (hdec _)
        | simp_all

/-- C2 witness: the amended theorem at a concrete request whose decoder
succeeds with `payload0`. -/
theorem c2_outcome_taxonomy_or_claims_witness :
    (∃ p, validate_client_assertion cid0 "token" "aud" "client_credentials" "iSHARE"
        ASSERTION_TYPE gh0 dec0 true = .ok p)
    ∨ (∃ k, validate_client_assertion cid0 "token" "aud" "client_credentials" "iSHARE"
        ASSERTION_TYPE gh0 dec0 true = .error (.taxonomy k)) :=
  c2_outcome_taxonomy_or_claims cid0 "token" "aud" "client_credentials" "iSHARE"
    ASSERTION_TYPE true gh0 dec0 hdr0 "RS256" "JWT" (some ["certA"])
    rfl rfl rfl rfl (fun certs h => by simp [dec0] at h)

/-- C3: the code checks `headers["x5c"] is None or len(headers["x5c"]) < 1`,
so a header whose `x5c` key is absent raises an uncaught `KeyError` instead of
`InvalidCertificate` (first conjunct, the divergence); a present `x5c` that is
JSON null or an empty list does fail with `InvalidCertificate` as claimed
(remaining conjuncts). -/
theorem c3_absent_x5c_raises_keyerror :
    validate_client_assertion cid0 "token" "aud" "client_credentials" "iSHARE"
      ASSERTION_TYPE (fun _ => some ⟨some "RS256", some "JWT", none⟩) decOther true
    = .error (.unclassified (.keyError "x5c"))
    ∧ validate_client_assertion cid0 "token" "aud" "client_credentials" "iSHARE"
      ASSERTION_TYPE (fun _ => some ⟨some "RS256", some "JWT", some none⟩) decOther true
    = .error (.taxonomy .InvalidCertificate)
    ∧ validate_client_assertion cid0 "token" "aud" "client_credentials" "iSHARE"
      ASSERTION_TYPE (fun _ => some ⟨some "RS256", some "JWT", some (some [])⟩) decOther true
    = .error (.taxonomy .InvalidCertificate) :=
  ⟨rfl, rfl, rfl⟩


/-- C4: for a request on which steps 1-11 all pass, validation succeeds with
the decoded payload exactly when `exp - iat` (each defaulting to 0 when
absent) equals 30 seconds, and any other window — shorter or longer — fails
with `TokenExpirationInvalid`. -/
theorem c4_exact_lifetime_window
    (client_id client_assertion audience : String) (strict_eori : Bool)
    (getHeader : String → Option Header)
    (decode : String → List String → String → DecodeResult)
    (headers : Header) (x5c : List String) (jwt_payload : Payload)
    (hgh : getHeader client_assertion = some headers)
    (halg : headers.alg = some "RS256")
    (htyp : headers.typ = some "JWT")
    (hx5c : headers.x5c = some (some x5c))
    (hlen : ¬ x5c.length < 1)
    (hdec : decode client_assertion x5c audience = .ok jwt_payload)
    (heori : is_valid_eori_number (some client_id) strict_eori = true)
    (hsub : jwt_payload.sub = some client_id)
    (hiss : jwt_payload.iss = some client_id)
    (hjti : jtiTruthy jwt_payload.jti = true) :
    (validate_client_assertion client_id client_assertion audience "client_credentials"
        "iSHARE" ASSERTION_TYPE getHeader decode strict_eori = .ok jwt_payload
      ↔ jwt_payload.exp.getD 0 - jwt_payload.iat.getD 0 = 30)
    ∧ (jwt_payload.exp.getD 0 - jwt_payload.iat.getD 0 ≠ 30 →
        validate_client_assertion client_id client_assertion audience "client_credentials"
          "iSHARE" ASSERTION_TYPE getHeader decode strict_eori
        = .error (.taxonomy .TokenExpirationInvalid)) := by
  unfold validate_client_assertion
  simp only [hgh, halg, htyp, hx5c, hdec]
  constructor
  · simp [hlen, heori, hsub, hiss, hjti]
  · intro h30
    simp [hlen, heori, hsub, hiss, hjti, h30]

/-- C4 witness: the success direction at a concrete request whose payload has
`iat = 1000` and `exp = 1030`. -/
theorem c4_exact_lifetime_window_witness :
    validate_client_assertion cid0 "token" "aud" "client_credentials" "iSHARE"
      ASSERTION_TYPE gh0 dec0 true = .ok payload0 :=
  (c4_exact_lifetime_window cid0 "token" "aud" true gh0 dec0 hdr0 ["certA"] payload0
    rfl rfl rfl rfl (by decide) rfl (by decide) rfl rfl (by decide)).1.mpr (by decide)

/-- C6: for a request on which steps 1-9 all pass, validation fails with
`InvalidTokenIssuerOrSubscriber` exactly when the verified payload's `sub` or
`iss` claim differs from the request's `client_id` (an absent claim counts as
different); it proceeds past step 10 only when both equal `client_id`. -/
theorem c6_issuer_subscriber_must_match
    (client_id client_assertion audience : String) (strict_eori : Bool)
    (getHeader : String → Option Header)
    (decode : String → List String → String → DecodeResult)
    (headers : Header) (x5c : List String) (jwt_payload : Payload)
    (hgh : getHeader client_assertion = some headers)
    (halg : headers.alg = some "RS256")
    (htyp : headers.typ = some "JWT")
    (hx5c : headers.x5c = some (some x5c))
    (hlen : ¬ x5c.length < 1)
    (hdec : decode client_assertion x5c audience = .ok jwt_payload)
    (heori : is_valid_eori_number (some client_id) strict_eori = true) :
    validate_client_assertion client_id client_assertion audience "client_credentials"
      "iSHARE" ASSERTION_TYPE getHeader decode strict_eori
      = .error (.taxonomy .InvalidTokenIssuerOrSubscriber)
    ↔ (some client_id ≠ jwt_payload.sub ∨ some client_id ≠ jwt_payload.iss) := by
  unfold validate_client_assertion
  simp only [hgh, halg, htyp, hx5c, hdec]
  by_cases hc : some client_id ≠ jwt_payload.sub ∨ some client_id ≠ jwt_payload.iss
  · simp [hlen, heori, hc]
  · simp [hlen, heori, hc]
    split <;> simp_all
    split <;> simp_all

/-- C6 witness: the theorem at a concrete request whose payload has a `sub`
claim differing from `client_id`. -/
theorem c6_issuer_subscriber_must_match_witness :
    validate_client_assertion cid0 "token" "aud" "client_credentials" "iSHARE"
      ASSERTION_TYPE gh0 decBadSub true
    = .error (.taxonomy .InvalidTokenIssuerOrSubscriber) :=
  (c6_issuer_subscriber_must_match cid0 "token" "aud" true gh0 decBadSub hdr0 ["certA"]
    payloadBadSub rfl rfl rfl rfl (by decide) rfl (by decide)).mpr (by decide)

/-- C7: for a request on which steps 1-7 all pass, the three classified
decoder failures map one-to-one onto taxonomy kinds — expired to
`TokenExpired`, not-yet-valid to `TokenNotValidYet`, wrong audience to
`InvalidAudience` — while any other decoder failure propagates unclassified
and in particular is not equal to any taxonomy outcome. -/
theorem c7_decoder_failure_mapping
    (client_id client_assertion audience : String) (strict_eori : Bool)
    (getHeader : String → Option Header)
    (decode : String → List String → String → DecodeResult)
    (headers : Header) (x5c : List String)
    (hgh : getHeader client_assertion = some headers)
    (halg : headers.alg = some "RS256")
    (htyp : headers.typ = some "JWT")
    (hx5c : headers.x5c = some (some x5c))
    (hlen : ¬ x5c.length < 1) :
    (decode client_assertion x5c audience = .expiredSignature →
      validate_client_assertion client_id client_assertion audience "client_credentials"
        "iSHARE" ASSERTION_TYPE getHeader decode strict_eori
      = .error (.taxonomy .TokenExpired))
    ∧ (decode client_assertion x5c audience = .immatureSignature →
      validate_client_assertion client_id client_assertion audience "client_credentials"
        "iSHARE" ASSERTION_TYPE getHeader decode strict_eori
      = .error (.taxonomy .TokenNotValidYet))
    ∧ (decode client_assertion x5c audience = .invalidAudience →
      validate_client_assertion client_id client_assertion audience "client_credentials"
        "iSHARE" ASSERTION_TYPE getHeader decode strict_eori
      = .error (.taxonomy .InvalidAudience))
    ∧ (decode client_assertion x5c audience = .otherError →
      validate_client_assertion client_id client_assertion audience "client_credentials"
        "iSHARE" ASSERTION_TYPE getHeader decode strict_eori
      = .error (.unclassified .decoderError))
    ∧ (decode client_assertion x5c audience = .otherError →
      ∀ k : ErrorKind,
        validate_client_assertion client_id client_assertion audience "client_credentials"
          "iSHARE" ASSERTION_TYPE getHeader decode strict_eori
        ≠ .error (.taxonomy k)) := by
  refine ⟨fun h => ?_, fun h => ?_, fun h => ?_, fun h => ?_, fun h k => ?_⟩ <;>
    unfold validate_client_assertion <;>
      simp [hgh, halg, htyp, hx5c, hlen, h]

/-- C7 witness: the expired case at a concrete request whose decoder raises
`ExpiredSignatureError`. -/
theorem c7_decoder_failure_mapping_witness :
    validate_client_assertion cid0 "token" "aud" "client_credentials" "iSHARE"
      ASSERTION_TYPE gh0 decExpired true
    = .error (.taxonomy .TokenExpired) :=
  (c7_decoder_failure_mapping cid0 "token" "aud" true gh0 decExpired hdr0 ["certA"]
    rfl rfl rfl rfl (by decide)).1 rfl

/-- C10: in the step-12 lifetime check a missing `exp` or `iat` claim defaults
to 0: for a request on which steps 1-11 all pass, a payload with `exp = 30`
and no `iat` claim is accepted, while a payload with neither claim is rejected
with `TokenExpirationInvalid`. -/
theorem c10_missing_lifetime_claims_default_zero
    (client_id client_assertion audience : String) (strict_eori : Bool)
    (getHeader : String → Option Header)
    (decode : String → List String → String → DecodeResult)
    (headers : Header) (x5c : List String) (jwt_payload : Payload)
    (hgh : getHeader client_assertion = some headers)
    (halg : headers.alg = some "RS256")
    (htyp : headers.typ = some "JWT")
    (hx5c : headers.x5c = some (some x5c))
    (hlen : ¬ x5c.length < 1)
    (hdec : decode client_assertion x5c audience = .ok jwt_payload)
    (heori : is_valid_eori_number (some client_id) strict_eori = true)
    (hsub : jwt_payload.sub = some client_id)
    (hiss : jwt_payload.iss = some client_id)
    (hjti : jtiTruthy jwt_payload.jti = true) :
    (jwt_payload.exp = some 30 → jwt_payload.iat = none →
      validate_client_assertion client_id client_assertion audience "client_credentials"
        "iSHARE" ASSERTION_TYPE getHeader decode strict_eori = .ok jwt_payload)
    ∧ (jwt_payload.exp = none → jwt_payload.iat = none →
      validate_client_assertion client_id client_assertion audience "client_credentials"
        "iSHARE" ASSERTION_TYPE getHeader decode strict_eori
      = .error (.taxonomy .TokenExpirationInvalid)) := by
  constructor <;> intro hexp hiat <;>
    unfold validate_client_assertion <;>
      simp [hgh, halg, htyp, hx5c, hdec, hlen, heori, hsub, hiss, hjti, hexp, hiat]

/-- C10 witness: the accepting case at a concrete request whose payload has
`exp = 30` and no `iat` claim. -/
theorem c10_missing_lifetime_claims_default_zero_witness :
    validate_client_assertion cid0 "token" "aud" "client_credentials" "iSHARE"
      ASSERTION_TYPE gh0 decNoIat true = .ok payloadNoIat :=
  (c10_missing_lifetime_claims_default_zero cid0 "token" "aud" true gh0 decNoIat hdr0
    ["certA"] payloadNoIat rfl rfl rfl rfl (by decide) rfl (by decide) rfl rfl
    (by decide)).1 rfl rfl

end IShare
